import Mathlib

/-!
Shallow embedding of the hook lifecycle coordination layer of hudhook
(`src/lib.rs`): the console utilities guarded by the `CONSOLE_ALLOCATED`
flag, the set-once global state (`MODULE`, `HOOKS` as `OnceCell`s), the
`eject` teardown worker, and the `DllMain` generated by the entry-point
declaration, together with its install worker.

Module handles (`HINSTANCE`) and hook capability objects
(`Box<dyn Hooks>`) are modelled as natural numbers serving as opaque
identities.  Calls into external code (Win32 console calls, the
trampoline engine behind `hook`/`unhook`, `FreeLibraryAndExitThread`)
are recorded as events in a trace.  Rust panics are modelled explicitly:
a worker body that panics stops executing at the panicking call (the
spawned thread unwinds), which the embedding records with a `panicked`
flag; events emitted before the panic remain in the trace.

The `Hooks` trait itself lives in the crate's `hooks` module, which is
not part of the source surface here; its `hook`/`unhook` operations are
therefore treated as external calls whose outcome (`ok`, `err`, or a
panic) is a parameter of the embedding, following the specification's
contract that install/uninstall report a `Result`.
-/

namespace Hudhook

/-- Observable calls into external code made by the embedded functions. -/
inductive Event where
  | allocConsoleCall : Event
  | setConsoleModeCall : Event
  | freeConsoleCall : Event
  | hookCall : Event
  | unhookCall : Event
  | freeLibraryAndExitThread : Nat → Event
  | spawnWorker : Event
deriving DecidableEq, Repr

/-- Whether an event is the self-unload call `FreeLibraryAndExitThread`. -/
def Event.isSelfUnload : Event → Bool
  | .freeLibraryAndExitThread _ => true
  | _ => false

/-- The process-wide mutable state of `src/lib.rs`: the
`CONSOLE_ALLOCATED` atomic flag, and the two set-once slots
`MODULE : OnceCell<HINSTANCE>` and `HOOKS : OnceCell<Box<dyn Hooks>>`,
each modelled as an `Option`. -/
structure GState where
  consoleAllocated : Bool
  module : Option Nat
  hooks : Option Nat
deriving DecidableEq, Repr

/-- The state at module load: flag clear, both cells empty. -/
def initState : GState := ⟨false, none, none⟩

/-- `OnceCell::set`: stores the value and reports success when the cell
is empty; otherwise leaves the stored value untouched and reports
failure. -/
def onceCellSet (cell : Option α) (v : α) : Option α × Bool :=
  match cell with
  | none => (some v, true)
  | some w => (some w, false)

/-- Result of running a (possibly panicking) code path: the state it
leaves behind, the external calls it made in order, and whether it
panicked (unwound) before completing. -/
structure RunResult where
  state : GState
  events : List Event
  panicked : Bool
deriving DecidableEq, Repr

/-- Outcome of a call into the external hook engine (`hook`/`unhook`):
it returns reporting success, returns reporting an error, or panics. -/
inductive CallOutcome where
  | ok : CallOutcome
  | err : CallOutcome
  | panics : CallOutcome
deriving DecidableEq, Repr

/-- `utils::alloc_console`: `CONSOLE_ALLOCATED.swap(true)`; only when
the flag was clear is `AllocConsole` called. -/
def alloc_console (s : GState) : GState × List Event :=
  if s.consoleAllocated then
    ({ s with consoleAllocated := true }, [])
  else
    ({ s with consoleAllocated := true }, [Event.allocConsoleCall])

/-- `utils::enable_console_colors`: only when `CONSOLE_ALLOCATED` is set
does it fetch the stdout handle and update the console mode (recorded as
one `setConsoleModeCall`); the flag is not changed. -/
def enable_console_colors (s : GState) : GState × List Event :=
  if s.consoleAllocated then (s, [Event.setConsoleModeCall]) else (s, [])

/-- `utils::free_console`: `CONSOLE_ALLOCATED.swap(false)`; only when
the flag was set is `FreeConsole` called. -/
def free_console (s : GState) : GState × List Event :=
  if s.consoleAllocated then
    ({ s with consoleAllocated := false }, [Event.freeConsoleCall])
  else
    ({ s with consoleAllocated := false }, [])

/-- `global_state::set_module`: `MODULE.set(module).unwrap()` — stores
the handle when the cell is empty, and panics (the `unwrap` of the `Err`
case) when it is already occupied, leaving the cell untouched. -/
def set_module (s : GState) (m : Nat) : Except String GState :=
  match onceCellSet s.module m with
  | (cell, true) => .ok { s with module := cell }
  | (_, false) => .error "called Result::unwrap on an Err value"

/-- `global_state::get_module`: `*MODULE.get().unwrap()` — panics when
the cell is empty. -/
def get_module (s : GState) : Except String Nat :=
  match s.module with
  | some m => .ok m
  | none => .error "called Option::unwrap on a None value"

/-- `global_state::set_hooks`: `HOOKS.set(hooks).ok()` — when the cell
is occupied the `Err` carrying the rejected value is discarded by
`.ok()`, so the call returns normally either way and never overwrites. -/
def set_hooks (s : GState) (hk : Nat) : Except String GState :=
  .ok { s with hooks := (onceCellSet s.hooks hk).1 }

/-- Body of the worker thread spawned by `lifecycle::eject`, run to
completion (the single-threaded model of an eject request): free the
console, take `HOOKS` and — if a value was present — call `unhook` on
it, then take `MODULE` and — if a handle was present — call
`FreeLibraryAndExitThread`, the final non-returning step.
`unhookOutcome` is the outcome of the external `unhook` call; the
source discards its reported result (`hooks.unhook();`), so only a
panic interrupts the sequence. -/
def eject_worker (unhookOutcome : CallOutcome) (s : GState) : RunResult :=
  let p1 := free_console s
  let s1 := p1.1
  match s1.hooks with
  | none =>
    match s1.module with
    | none => ⟨s1, p1.2, false⟩
    | some m =>
      ⟨{ s1 with module := none },
        p1.2 ++ [Event.freeLibraryAndExitThread m], false⟩
  | some _ =>
    let s2 : GState := { s1 with hooks := none }
    match unhookOutcome with
    | .panics => ⟨s2, p1.2 ++ [Event.unhookCall], true⟩
    | _ =>
      match s2.module with
      | none => ⟨s2, p1.2 ++ [Event.unhookCall], false⟩
      | some m =>
        ⟨{ s2 with module := none },
          p1.2 ++ [Event.unhookCall, Event.freeLibraryAndExitThread m], false⟩

/-- Body of the install worker thread spawned on `DLL_PROCESS_ATTACH`
by the generated entry point: build the hooks value `hk`, call `hook()`
on it, then call `set_hooks`.  `hookOutcome` is the outcome of the
external `hook()` call; the source discards its reported result
(`hooks.hook();`), so after either `ok` or `err` it proceeds to store
the hooks, while a panic unwinds the thread and drops them. -/
def install_worker (hookOutcome : CallOutcome) (hk : Nat) (s : GState) :
    RunResult :=
  match hookOutcome with
  | .panics => ⟨s, [Event.hookCall], true⟩
  | _ =>
    match set_hooks s hk with
    | .ok s1 => ⟨s1, [Event.hookCall], false⟩
    | .error _ => ⟨s, [Event.hookCall], true⟩

/-- The `DLL_PROCESS_ATTACH` reason code. -/
def DLL_PROCESS_ATTACH : Nat := 1

/-- The `DllMain` generated by the entry-point declaration: on the
attach reason it records the module handle (`set_module`, which panics
on a second attach) and spawns the install worker thread, and for every
other reason it does nothing.  Only `DllMain`'s own execution is
modelled here; the spawned worker's actions (`install_worker`) are not
part of its trace or its return path. -/
def dllMain (reason : Nat) (hmodule : Nat) (s : GState) : RunResult :=
  if reason = DLL_PROCESS_ATTACH then
    match set_module s hmodule with
    | .ok s1 => ⟨s1, [Event.spawnWorker], false⟩
    | .error _ => ⟨s, [], true⟩
  else ⟨s, [], false⟩

/-- The three console utility entry points of `utils`. -/
inductive ConsoleOp where
  | alloc : ConsoleOp
  | enableColors : ConsoleOp
  | free : ConsoleOp
deriving DecidableEq, Repr

/-- Dispatch one console utility call. -/
def consoleStep (s : GState) (op : ConsoleOp) : GState × List Event :=
  match op with
  | .alloc => alloc_console s
  | .enableColors => enable_console_colors s
  | .free => free_console s

/-- Run a sequence of console utility calls, collecting the trace. -/
def consoleRun (s : GState) : List ConsoleOp → GState × List Event
  | [] => (s, [])
  | op :: ops =>
    let p := consoleStep s op
    let q := consoleRun p.1 ops
    (q.1, p.2 ++ q.2)

/-- Modelled from the spec: the `set_hooks` behaviour §4.3/§8 describe
for the missing sibling of `set_module` — fail if the slot is already
occupied, succeed and store otherwise.  Stated for comparison with the
source's `set_hooks`. -/
def set_hooks_specified (s : GState) (hk : Nat) : Except String GState :=
  match s.hooks with
  | none => .ok { s with hooks := some hk }
  | some _ => .error "hooks already set"

/-- Whether a call modelled in `Except` returned normally (`ok`) rather
than panicking (`error`). -/
def returnsNormally (r : Except String GState) : Bool :=
  match r with
  | .ok _ => true
  | .error _ => false

/-- Number of occurrences of the event `e` in a trace. -/
def countEvent (e : Event) : List Event → Nat
  | [] => 0
  | x :: xs => (if x = e then 1 else 0) + countEvent e xs

/-- Number of self-unload calls in a trace. -/
def countSelfUnload : List Event → Nat
  | [] => 0
  | x :: xs => (if x.isSelfUnload then 1 else 0) + countSelfUnload xs

lemma countEvent_append (e : Event) (l1 l2 : List Event) :
    countEvent e (l1 ++ l2) = countEvent e l1 + countEvent e l2 := by
  induction l1 with
  | nil => simp [countEvent]
  | cons x xs ih => simp [countEvent, ih]; omega

lemma countSelfUnload_append (l1 l2 : List Event) :
    countSelfUnload (l1 ++ l2) = countSelfUnload l1 + countSelfUnload l2 := by
  induction l1 with
  | nil => simp [countSelfUnload]
  | cons x xs ih => simp [countSelfUnload, ih]; omega

lemma eject_worker_state_empty (o : CallOutcome) (s : GState)
    (h : o ≠ CallOutcome.panics) :
    (eject_worker o s).state = ⟨false, none, none⟩ := by
  cases o with
  | panics => exact absurd rfl h
  | ok =>
    rcases s with ⟨c, mo, hk⟩
    cases c <;> rcases hk with _ | v <;> rcases mo with _ | m <;>
      simp [eject_worker, free_console]
  | err =>
    rcases s with ⟨c, mo, hk⟩
    cases c <;> rcases hk with _ | v <;> rcases mo with _ | m <;>
      simp [eject_worker, free_console]

lemma eject_worker_counts (o : CallOutcome) (s : GState) :
    countEvent Event.unhookCall (eject_worker o s).events ≤ 1 ∧
    countSelfUnload (eject_worker o s).events ≤ 1 := by
  rcases s with ⟨c, mo, hk⟩
  cases o <;> cases c <;> rcases hk with _ | v <;> rcases mo with _ | m <;>
    simp [eject_worker, free_console, countEvent, countSelfUnload,
      Event.isSelfUnload]

lemma consoleRun_alloc_bound (ops : List ConsoleOp) :
    ∀ s : GState, ConsoleOp.free ∉ ops →
      countEvent Event.allocConsoleCall (consoleRun s ops).2 ≤
        (if s.consoleAllocated then 0 else 1) := by
  induction ops with
  | nil => intro s _; simp [consoleRun, countEvent]
  | cons op ops ih =>
    intro s h
    simp only [List.mem_cons, not_or] at h
    obtain ⟨h1, h2⟩ := h
    cases op with
    | alloc =>
      have hb := ih { s with consoleAllocated := true } h2
      simp at hb
      by_cases hc : s.consoleAllocated <;>
        simp [consoleRun, consoleStep, alloc_console, hc, countEvent,
          countEvent_append] <;> omega
    | enableColors =>
      have hb := ih s h2
      by_cases hc : s.consoleAllocated <;>
        simp [consoleRun, consoleStep, enable_console_colors, hc, countEvent,
          countEvent_append] <;> simp [hc] at hb <;> omega
    | free => exact absurd rfl h1

/-- C9: the console utilities are each idempotent against the shared
`CONSOLE_ALLOCATED` flag: a sequence of console calls containing no
`free_console` performs the underlying `AllocConsole` at most once;
`free_console` calls `FreeConsole` exactly when the flag records an
allocation; `enable_console_colors` touches the console mode exactly
when the flag records an allocation; and `alloc_console` calls
`AllocConsole` exactly when the flag is clear (allocate/free symmetry
on the flag). -/
theorem console_utils_idempotent (s : GState) (ops : List ConsoleOp)
    (h : ConsoleOp.free ∉ ops) :
    countEvent Event.allocConsoleCall (consoleRun s ops).2 ≤ 1 ∧
    (Event.freeConsoleCall ∈ (free_console s).2 ↔ s.consoleAllocated = true) ∧
    (Event.setConsoleModeCall ∈ (enable_console_colors s).2 ↔
      s.consoleAllocated = true) ∧
    (Event.allocConsoleCall ∈ (alloc_console s).2 ↔
      s.consoleAllocated = false) ∧
    (free_console s).1.consoleAllocated = false ∧
    (alloc_console s).1.consoleAllocated = true := by
  refine ⟨?_, ?_, ?_, ?_, ?_, ?_⟩
  · have hb := consoleRun_alloc_bound ops s h
    by_cases hc : s.consoleAllocated <;> simp [hc] at hb <;> omega
  · by_cases hc : s.consoleAllocated <;> simp [free_console, hc]
  · by_cases hc : s.consoleAllocated <;> simp [enable_console_colors, hc]
  · by_cases hc : s.consoleAllocated <;> simp [alloc_console, hc]
  · by_cases hc : s.consoleAllocated <;> simp [free_console, hc]
  · by_cases hc : s.consoleAllocated <;> simp [alloc_console, hc]

/-- Witness for C9 at a concrete state and call sequence. -/
theorem console_utils_idempotent_witness :
    ConsoleOp.free ∉ [ConsoleOp.alloc, ConsoleOp.enableColors,
      ConsoleOp.alloc] ∧
    (countEvent Event.allocConsoleCall
      (consoleRun ⟨false, none, none⟩
        [ConsoleOp.alloc, ConsoleOp.enableColors, ConsoleOp.alloc]).2 ≤ 1 ∧
    (Event.freeConsoleCall ∈ (free_console ⟨false, none, none⟩).2 ↔
      (⟨false, none, none⟩ : GState).consoleAllocated = true) ∧
    (Event.setConsoleModeCall ∈
        (enable_console_colors ⟨false, none, none⟩).2 ↔
      (⟨false, none, none⟩ : GState).consoleAllocated = true) ∧
    (Event.allocConsoleCall ∈ (alloc_console ⟨false, none, none⟩).2 ↔
      (⟨false, none, none⟩ : GState).consoleAllocated = false) ∧
    (free_console ⟨false, none, none⟩).1.consoleAllocated = false ∧
    (alloc_console ⟨false, none, none⟩).1.consoleAllocated = true) :=
  ⟨by decide, console_utils_idempotent ⟨false, none, none⟩
    [ConsoleOp.alloc, ConsoleOp.enableColors, ConsoleOp.alloc] (by decide)⟩

/-- C3: `set_module` succeeds on the first call, storing the handle;
every subsequent call panics — the `unwrap` on the `Err` returned by
the occupied `OnceCell` — and the stored handle is not overwritten:
the underlying set-once cell leaves the live value in place. -/
theorem set_module_set_once (s : GState) (m : Nat) :
    (s.module = none →
      set_module s m = .ok { s with module := some m }) ∧
    (∀ v, s.module = some v →
      set_module s m = .error "called Result::unwrap on an Err value" ∧
      (onceCellSet s.module m).1 = some v) := by
  constructor
  · intro h; simp [set_module, onceCellSet, h]
  · intro v h; simp [set_module, onceCellSet, h]

/-- Witness for C3: first set succeeds, second panics without
overwriting. -/
theorem set_module_set_once_witness :
    set_module ⟨false, none, none⟩ 5 = .ok ⟨false, some 5, none⟩ ∧
    set_module ⟨false, some 5, none⟩ 7 =
      .error "called Result::unwrap on an Err value" ∧
    (onceCellSet (some 5 : Option Nat) 7).1 = some 5 :=
  ⟨(set_module_set_once ⟨false, none, none⟩ 5).1 rfl,
   ((set_module_set_once ⟨false, some 5, none⟩ 7).2 5 rfl).1,
   ((set_module_set_once ⟨false, some 5, none⟩ 7).2 5 rfl).2⟩

/-- C10: `get_module` panics (unwrap of `None`) whenever the module
slot is empty, rather than returning an error value; after any
successful `set_module`, it returns the stored handle. -/
theorem get_module_panics_when_unset (s : GState) :
    (s.module = none →
      get_module s = .error "called Option::unwrap on a None value") ∧
    (∀ s1 m, set_module s m = .ok s1 → get_module s1 = .ok m) := by
  constructor
  · intro h; simp [get_module, h]
  · intro s1 m h
    cases hm : s.module with
    | none =>
      simp [set_module, onceCellSet, hm] at h
      simp [get_module, ← h]
    | some v => simp [set_module, onceCellSet, hm] at h

/-- Witness for C10: `get_module` on the fresh state panics, and after
a successful `set_module` it returns the handle. -/
theorem get_module_panics_when_unset_witness :
    get_module ⟨false, none, none⟩ =
      .error "called Option::unwrap on a None value" ∧
    get_module ⟨false, some 9, none⟩ = .ok 9 :=
  ⟨(get_module_panics_when_unset ⟨false, none, none⟩).1 rfl,
   (get_module_panics_when_unset ⟨false, none, none⟩).2
     ⟨false, some 9, none⟩ 9 rfl⟩

/-- C2 counterexample: with the hooks slot already holding a value, a
further `set_hooks` call returns normally — it does not return an error
and does not panic, because the `Err` of the set-once cell is discarded
by `.ok()` — so the claim that every subsequent call fails is false;
the slot is left unchanged. -/
theorem set_hooks_silent_counterexample :
    returnsNormally (set_hooks ⟨false, none, some 1⟩ 2) = true ∧
    set_hooks ⟨false, none, some 1⟩ 2 =
      Except.ok ⟨false, none, some 1⟩ :=
  ⟨rfl, rfl⟩

/-- C2 amended: the first `set_hooks` call stores the hooks; every
subsequent call is a silent no-op — it returns normally, raising no
error and no panic, and leaves the originally stored hooks in place
(they are never overwritten). -/
theorem set_hooks_silent_noop (s : GState) (hk : Nat) :
    (s.hooks = none →
      set_hooks s hk = .ok { s with hooks := some hk }) ∧
    (∀ v, s.hooks = some v → set_hooks s hk = .ok s) := by
  constructor
  · intro h; simp [set_hooks, onceCellSet, h]
  · intro v h
    rcases s with ⟨c, mo, hks⟩
    simp at h
    subst h
    simp [set_hooks, onceCellSet]

/-- Witness for the amended C2: a first store succeeds, a second call
returns normally with the slot unchanged. -/
theorem set_hooks_silent_noop_witness :
    set_hooks ⟨false, none, none⟩ 1 = .ok ⟨false, none, some 1⟩ ∧
    set_hooks ⟨false, none, some 1⟩ 2 = .ok ⟨false, none, some 1⟩ :=
  ⟨(set_hooks_silent_noop ⟨false, none, none⟩ 1).1 rfl,
   (set_hooks_silent_noop ⟨false, none, some 1⟩ 2).2 1 rfl⟩

/-- C1: running the eject worker twice in succession (single-threaded
model), with the first run not interrupted by a panic, performs at most
one `unhook` call and at most one self-unload across both runs, and the
second run is a no-op: it emits no events and leaves the state
unchanged. -/
theorem eject_idempotent (s : GState) (o1 o2 : CallOutcome)
    (h : o1 ≠ CallOutcome.panics) :
    countEvent Event.unhookCall ((eject_worker o1 s).events ++
      (eject_worker o2 (eject_worker o1 s).state).events) ≤ 1 ∧
    countSelfUnload ((eject_worker o1 s).events ++
      (eject_worker o2 (eject_worker o1 s).state).events) ≤ 1 ∧
    (eject_worker o2 (eject_worker o1 s).state).events = [] ∧
    (eject_worker o2 (eject_worker o1 s).state).state =
      (eject_worker o1 s).state := by
  have hs := eject_worker_state_empty o1 s h
  have h2 : eject_worker o2 (⟨false, none, none⟩ : GState) =
      ⟨⟨false, none, none⟩, [], false⟩ := rfl
  rw [hs, h2]
  refine ⟨?_, ?_, rfl, rfl⟩
  · simpa [countEvent_append, countEvent] using (eject_worker_counts o1 s).1
  · simpa [countSelfUnload_append, countSelfUnload] using
      (eject_worker_counts o1 s).2

/-- Witness for C1 at a fully populated state. -/
theorem eject_idempotent_witness :
    CallOutcome.ok ≠ CallOutcome.panics ∧
    (countEvent Event.unhookCall
      ((eject_worker CallOutcome.ok ⟨true, some 4, some 2⟩).events ++
        (eject_worker CallOutcome.ok
          (eject_worker CallOutcome.ok
            ⟨true, some 4, some 2⟩).state).events) ≤ 1 ∧
    countSelfUnload
      ((eject_worker CallOutcome.ok ⟨true, some 4, some 2⟩).events ++
        (eject_worker CallOutcome.ok
          (eject_worker CallOutcome.ok
            ⟨true, some 4, some 2⟩).state).events) ≤ 1 ∧
    (eject_worker CallOutcome.ok
      (eject_worker CallOutcome.ok
        ⟨true, some 4, some 2⟩).state).events = [] ∧
    (eject_worker CallOutcome.ok
      (eject_worker CallOutcome.ok
        ⟨true, some 4, some 2⟩).state).state =
      (eject_worker CallOutcome.ok ⟨true, some 4, some 2⟩).state) :=
  ⟨by decide, eject_idempotent ⟨true, some 4, some 2⟩
    CallOutcome.ok CallOutcome.ok (by decide)⟩

/-- C6: when the unhook call does not panic, the eject worker's trace is
exactly: the console release (emitted iff the flag was set), then the
`unhook` call (emitted iff the hooks slot was occupied), then — last,
as the final non-returning step — the self-unload call (emitted iff the
module slot was occupied); afterwards both slots are empty. -/
theorem eject_order (s : GState) (o : CallOutcome)
    (h : o ≠ CallOutcome.panics) :
    (eject_worker o s).events =
      (if s.consoleAllocated then [Event.freeConsoleCall] else []) ++
      (if s.hooks.isSome then [Event.unhookCall] else []) ++
      (s.module.map Event.freeLibraryAndExitThread).toList ∧
    (eject_worker o s).state.hooks = none ∧
    (eject_worker o s).state.module = none ∧
    (eject_worker o s).panicked = false := by
  cases o with
  | panics => exact absurd rfl h
  | ok =>
    rcases s with ⟨c, mo, hk⟩
    cases c <;> rcases hk with _ | v <;> rcases mo with _ | m <;>
      simp [eject_worker, free_console]
  | err =>
    rcases s with ⟨c, mo, hk⟩
    cases c <;> rcases hk with _ | v <;> rcases mo with _ | m <;>
      simp [eject_worker, free_console]

/-- Witness for C6 at a fully populated state. -/
theorem eject_order_witness :
    CallOutcome.ok ≠ CallOutcome.panics ∧
    ((eject_worker CallOutcome.ok ⟨true, some 4, some 2⟩).events =
      (if (⟨true, some 4, some 2⟩ : GState).consoleAllocated then
        [Event.freeConsoleCall] else []) ++
      (if (⟨true, some 4, some 2⟩ : GState).hooks.isSome then
        [Event.unhookCall] else []) ++
      ((⟨true, some 4, some 2⟩ : GState).module.map
        Event.freeLibraryAndExitThread).toList ∧
    (eject_worker CallOutcome.ok ⟨true, some 4, some 2⟩).state.hooks =
      none ∧
    (eject_worker CallOutcome.ok ⟨true, some 4, some 2⟩).state.module =
      none ∧
    (eject_worker CallOutcome.ok ⟨true, some 4, some 2⟩).panicked =
      false) :=
  ⟨by decide, eject_order ⟨true, some 4, some 2⟩ CallOutcome.ok
    (by decide)⟩

/-- C7: when eject runs while the hooks slot is still empty but the
module slot holds a handle, no `unhook` call is made, the module slot
is still taken and `FreeLibraryAndExitThread` called on the handle, and
the worker does not panic. -/
theorem eject_before_install_race (s : GState) (m : Nat)
    (o : CallOutcome) (hh : s.hooks = none) (hm : s.module = some m) :
    countEvent Event.unhookCall (eject_worker o s).events = 0 ∧
    Event.freeLibraryAndExitThread m ∈ (eject_worker o s).events ∧
    (eject_worker o s).state.module = none ∧
    (eject_worker o s).panicked = false := by
  rcases s with ⟨c, mo, hk⟩
  simp at hh hm
  subst hh
  subst hm
  cases c <;> simp [eject_worker, free_console, countEvent]

/-- Witness for C7: hooks slot empty, module slot occupied. -/
theorem eject_before_install_race_witness :
    (⟨true, some 8, none⟩ : GState).hooks = none ∧
    (⟨true, some 8, none⟩ : GState).module = some 8 ∧
    (countEvent Event.unhookCall
      (eject_worker CallOutcome.ok ⟨true, some 8, none⟩).events = 0 ∧
    Event.freeLibraryAndExitThread 8 ∈
      (eject_worker CallOutcome.ok ⟨true, some 8, none⟩).events ∧
    (eject_worker CallOutcome.ok ⟨true, some 8, none⟩).state.module =
      none ∧
    (eject_worker CallOutcome.ok ⟨true, some 8, none⟩).panicked =
      false) :=
  ⟨rfl, rfl, eject_before_install_race ⟨true, some 8, none⟩ 8
    CallOutcome.ok rfl rfl⟩

/-- C5 counterexample: with an installed hook and a recorded module
handle, an `unhook` call that reports an error does not stop the eject
worker — its trace still ends with the self-unload call, so the claim
that the worker does not proceed to self-unload when uninstall does not
confirm success is false. -/
theorem eject_unhook_err_counterexample :
    (eject_worker CallOutcome.err ⟨false, some 5, some 1⟩).events =
      [Event.unhookCall, Event.freeLibraryAndExitThread 5] ∧
    countSelfUnload
      (eject_worker CallOutcome.err ⟨false, some 5, some 1⟩).events =
      1 :=
  ⟨rfl, rfl⟩

/-- C5 amended: the eject worker discards `unhook`'s reported result
(`hooks.unhook();`) and proceeds to self-unload whenever the module
slot is occupied, whether `unhook` reported success or an error; only a
panic in `unhook` (possible only when a hook was present) interrupts
the sequence before the self-unload step. -/
theorem eject_ignores_unhook_result (s : GState) (m : Nat)
    (o : CallOutcome) (hm : s.module = some m) :
    (o ≠ CallOutcome.panics →
      Event.freeLibraryAndExitThread m ∈ (eject_worker o s).events) ∧
    (o = CallOutcome.panics → s.hooks.isSome = true →
      countSelfUnload (eject_worker o s).events = 0 ∧
      (eject_worker o s).panicked = true) := by
  rcases s with ⟨c, mo, hk⟩
  simp at hm
  subst hm
  constructor
  · intro ho
    cases o with
    | panics => exact absurd rfl ho
    | ok =>
      cases c <;> rcases hk with _ | v <;>
        simp [eject_worker, free_console]
    | err =>
      cases c <;> rcases hk with _ | v <;>
        simp [eject_worker, free_console]
  · intro ho hhk
    subst ho
    rcases hk with _ | v
    · simp at hhk
    · cases c <;>
        simp [eject_worker, free_console, countSelfUnload,
          Event.isSelfUnload]

/-- Witness for the amended C5 at a populated state with an erring
unhook. -/
theorem eject_ignores_unhook_result_witness :
    (⟨false, some 5, some 1⟩ : GState).module = some 5 ∧
    ((CallOutcome.err ≠ CallOutcome.panics →
      Event.freeLibraryAndExitThread 5 ∈
        (eject_worker CallOutcome.err ⟨false, some 5, some 1⟩).events) ∧
    (CallOutcome.err = CallOutcome.panics →
      (⟨false, some 5, some 1⟩ : GState).hooks.isSome = true →
      countSelfUnload
        (eject_worker CallOutcome.err
          ⟨false, some 5, some 1⟩).events = 0 ∧
      (eject_worker CallOutcome.err
        ⟨false, some 5, some 1⟩).panicked = true)) :=
  ⟨rfl, eject_ignores_unhook_result ⟨false, some 5, some 1⟩ 5
    CallOutcome.err rfl⟩

/-- C4 counterexample: in the install worker, a `hook()` call that
reports an error does not prevent storage — starting from the fresh
state, the hooks are stored in the slot anyway and the worker completes
normally, so the claim that the hook is stored only when install
succeeds is false. -/
theorem install_worker_stores_on_err_counterexample :
    (install_worker CallOutcome.err 7 initState).state.hooks = some 7 ∧
    (install_worker CallOutcome.err 7 initState).panicked = false :=
  ⟨rfl, rfl⟩

/-- C4 amended: the install worker stores the hook capability via
`set_hooks` after `hook()` returns, regardless of whether it reported
success or an error — the reported result is discarded
(`hooks.hook();`); only a panic in `hook()` unwinds the worker, in
which case the hooks are dropped and the state is unchanged. -/
theorem install_worker_stores_unconditionally (o : CallOutcome)
    (hk : Nat) (s : GState) :
    (o ≠ CallOutcome.panics →
      (install_worker o hk s).state.hooks = (onceCellSet s.hooks hk).1 ∧
      (install_worker o hk s).panicked = false) ∧
    (o = CallOutcome.panics →
      (install_worker o hk s).state = s ∧
      (install_worker o hk s).panicked = true) := by
  constructor
  · intro ho
    cases o with
    | panics => exact absurd rfl ho
    | ok => simp [install_worker, set_hooks]
    | err => simp [install_worker, set_hooks]
  · intro ho
    subst ho
    simp [install_worker]

/-- Witness for the amended C4: an erring install still stores the
hooks. -/
theorem install_worker_stores_unconditionally_witness :
    CallOutcome.err ≠ CallOutcome.panics ∧
    (install_worker CallOutcome.err 7 ⟨false, none, none⟩).state.hooks =
      (onceCellSet (⟨false, none, none⟩ : GState).hooks 7).1 ∧
    (install_worker CallOutcome.err 7 ⟨false, none, none⟩).panicked =
      false :=
  ⟨by decide,
   ((install_worker_stores_unconditionally CallOutcome.err 7
      ⟨false, none, none⟩).1 (by decide)).1,
   ((install_worker_stores_unconditionally CallOutcome.err 7
      ⟨false, none, none⟩).1 (by decide)).2⟩

/-- C8 counterexample: a second `DLL_PROCESS_ATTACH` with the module
slot already occupied makes `DllMain` panic — `set_module`'s `unwrap`
on the occupied set-once cell unwinds across the loader boundary — so
the claim that the entry point always returns normally for every
reason code is false. -/
theorem dllMain_double_attach_counterexample :
    (dllMain 1 9 ⟨false, some 5, none⟩).panicked = true ∧
    (dllMain 1 9 ⟨false, some 5, none⟩).events = [] :=
  ⟨rfl, rfl⟩

/-- C8 amended: `DllMain` returns normally for every reason code except
a double attach — for any non-attach reason it returns normally from
any state and does nothing, and on the attach reason it returns
normally whenever the module slot is empty (as on a fresh load), its
only actions being to record the module handle and spawn the install
worker; it never makes a `hook` or `unhook` call itself, so no
install/uninstall failure propagates across the loader boundary. Only
a second attach, where recording the module handle panics (the
double-attach guard of C3), makes it fail. -/
theorem dllMain_deferred_return (reason hmodule : Nat) (s : GState)
    (h : reason = DLL_PROCESS_ATTACH → s.module = none) :
    (dllMain reason hmodule s).panicked = false ∧
    Event.hookCall ∉ (dllMain reason hmodule s).events ∧
    Event.unhookCall ∉ (dllMain reason hmodule s).events ∧
    (reason = DLL_PROCESS_ATTACH →
      (dllMain reason hmodule s).events = [Event.spawnWorker] ∧
      (dllMain reason hmodule s).state.module = some hmodule) ∧
    (reason ≠ DLL_PROCESS_ATTACH →
      (dllMain reason hmodule s).events = [] ∧
      (dllMain reason hmodule s).state = s) := by
  by_cases hr : reason = DLL_PROCESS_ATTACH
  · subst hr
    have hm := h rfl
    simp [dllMain, set_module, onceCellSet, hm]
  · simp [dllMain, hr]

/-- Witness for the amended C8: the attach reason on the fresh state. -/
theorem dllMain_deferred_return_witness :
    ((1 : Nat) = DLL_PROCESS_ATTACH → initState.module = none) ∧
    ((dllMain 1 9 initState).panicked = false ∧
    Event.hookCall ∉ (dllMain 1 9 initState).events ∧
    Event.unhookCall ∉ (dllMain 1 9 initState).events ∧
    ((1 : Nat) = DLL_PROCESS_ATTACH →
      (dllMain 1 9 initState).events = [Event.spawnWorker] ∧
      (dllMain 1 9 initState).state.module = some 9) ∧
    ((1 : Nat) ≠ DLL_PROCESS_ATTACH →
      (dllMain 1 9 initState).events = [] ∧
      (dllMain 1 9 initState).state = initState)) :=
  ⟨fun _ => rfl, dllMain_deferred_return 1 9 initState (fun _ => rfl)⟩

end Hudhook
